import Mathlib

/-!
Shallow embedding of the secure-grpc demo (src/client.py, src/server.py),
together with theorems checking the natural-language specification against it.

Modelling conventions:
- Python integers are unbounded, so operands and sums are `Int`.
- File reads (`open(name, "br").read()`) are modelled against an explicit
  `FileSystem` map; a missing file makes the read fail, as the uncaught
  Python `FileNotFoundError` aborts the process.
- A Python `assert` that fails raises `AssertionError`, modelled as
  `PyError.assertionError` in an `Except` result.
- Each process `main` is modelled as a function producing the list of
  observable events it performs (file reads, channel setup, the RPC send
  and receive, prints, channel close) together with an `Except` outcome;
  `Except.ok ()` means the Python code ran to its final statement
  (for the server: it reached `wait_for_termination`).
- `random.randint(lo, hi)` (Python standard library) returns an integer N
  with lo ≤ N ≤ hi, both endpoints included.
- `grpc.ssl_server_credentials(pairs)` called with one positional argument
  leaves the gRPC defaults `root_certificates=None` and
  `require_client_auth=False`.
-/

namespace SecureGrpc

/-- The credential file names the two programs open, always relative to the
working directory. -/
inductive FileName where
  | serverKey
  | serverCrt
  | rootCrt
  | intermediateCrt
  | clientKey
  | clientCrt
  deriving DecidableEq, Repr

/-- A file system: which credential files exist and their (byte) contents. -/
def FileSystem : Type := FileName → Option String

/-- A file system in which every credential file is present, with contents
given by `g`. -/
def fsOf (g : FileName → String) : FileSystem := fun f => some (g f)

/-- The ways a run can abort: a failed Python `assert`, or an uncaught
`FileNotFoundError` from `open`. -/
inductive PyError where
  | assertionError
  | fileNotFound (f : FileName)
  deriving DecidableEq, Repr

/-- Command-line arguments produced by `common.parse_command_line_arguments`.
The helper itself is external to the given sources; only the fields the two
programs read are modelled. -/
structure Args where
  authentication : String
  signer : String
  server_host : String
  server_port : Nat
  server_authenticated : Bool
  deriving DecidableEq, Repr

/-- The address string both programs build from the parsed arguments. -/
def server_address (args : Args) : String :=
  args.server_host ++ ":" ++ toString args.server_port

/-- Result of `grpc.ssl_channel_credentials`: the trust anchor, and the
optional client private key and certificate chain (client.py line 22
passes all three in mutual mode, line 25 passes only the first). -/
structure ChannelCredentials where
  root_certificates : String
  private_key : Option String
  certificate_chain : Option String
  deriving DecidableEq, Repr

/-- Result of `grpc.ssl_server_credentials(pairs)` as called on
server.py line 24: one positional argument, so the gRPC defaults
`root_certificates=None` and `require_client_auth=False` apply. -/
structure ServerCredentials where
  private_key_certificate_chain_pairs : List (String × String)
  root_certificates : Option String
  require_client_auth : Bool
  deriving DecidableEq, Repr

/-- The call `grpc.ssl_server_credentials(pairs)` with the omitted arguments
at their documented defaults. -/
def ssl_server_credentials (pairs : List (String × String)) : ServerCredentials :=
  { private_key_certificate_chain_pairs := pairs
    root_certificates := none
    require_client_auth := false }

/-- Observable events of a run of either program, in program order. -/
inductive Event where
  | readFileEv (f : FileName)
  | printSummary (s : String)
  | openInsecureChannel (addr : String)
  | openSecureChannel (addr : String) (creds : ChannelCredentials)
  | printConnecting (addr : String)
  | sendRequest (a b : Int)
  | recvReply (sum : Int)
  | printResult (line : String)
  | closeChannel
  | printServerAuth (authenticated : Bool)
  | addSecurePort (addr : String) (creds : ServerCredentials)
  | addInsecurePort (addr : String)
  | registerServicer
  | serverStarted (addr : String)
  | waitForTermination
  deriving DecidableEq, Repr

/-- Modelled from the spec: `common.authentication_and_signer_summary` is part
of the shared helper module, absent from the given sources; the spec only says
the client prints a summary of the selected modes, so its exact text is a
placeholder built from the two mode fields. No claim depends on the text. -/
def authentication_and_signer_summary (args : Args) : String :=
  "Authentication: " ++ args.authentication ++ ", signer: " ++ args.signer

/-- The trust anchor chosen by client.py lines 13-18: `server.crt` when the
signer is `self`, `root.crt` when it is `root`, `intermediate.crt`
otherwise. -/
def anchor_file (signer : String) : FileName :=
  if signer = "self" then FileName.serverCrt
  else if signer = "root" then FileName.rootCrt
  else FileName.intermediateCrt

/-- client.py `make_credentials`, with its event trace. The two leading
asserts (lines 11-12) abort before any file is opened; each `open(...).read()`
appears as a `readFileEv` and aborts the run when the file is absent. -/
def make_credentials_tr (fs : FileSystem) (args : Args) :
    List Event × Except PyError ChannelCredentials :=
  if ¬ (args.authentication = "server" ∨ args.authentication = "mutual") then
    ([], Except.error PyError.assertionError)
  else if ¬ (args.signer = "self" ∨ args.signer = "root" ∨ args.signer = "intermediate") then
    ([], Except.error PyError.assertionError)
  else
    match fs (anchor_file args.signer) with
    | none =>
        ([Event.readFileEv (anchor_file args.signer)],
         Except.error (PyError.fileNotFound (anchor_file args.signer)))
    | some root_certificate_for_server =>
        if args.authentication = "mutual" then
          match fs FileName.clientKey with
          | none =>
              ([Event.readFileEv (anchor_file args.signer), Event.readFileEv FileName.clientKey],
               Except.error (PyError.fileNotFound FileName.clientKey))
          | some client_private_key =>
              match fs FileName.clientCrt with
              | none =>
                  ([Event.readFileEv (anchor_file args.signer),
                    Event.readFileEv FileName.clientKey,
                    Event.readFileEv FileName.clientCrt],
                   Except.error (PyError.fileNotFound FileName.clientCrt))
              | some client_certificate =>
                  ([Event.readFileEv (anchor_file args.signer),
                    Event.readFileEv FileName.clientKey,
                    Event.readFileEv FileName.clientCrt],
                   Except.ok { root_certificates := root_certificate_for_server
                               private_key := some client_private_key
                               certificate_chain := some client_certificate })
        else
          ([Event.readFileEv (anchor_file args.signer)],
           Except.ok { root_certificates := root_certificate_for_server
                       private_key := none
                       certificate_chain := none })

/-- The value `make_credentials` returns (or the error it raises). -/
def make_credentials (fs : FileSystem) (args : Args) : Except PyError ChannelCredentials :=
  (make_credentials_tr fs args).2

/-- The result line printed by client.py line 44. -/
def clientLine (a b sum : Int) : String :=
  "Client: " ++ toString a ++ " + " ++ toString b ++ " = " ++ toString sum

/-- client.py lines 38-45: print the connection line, send the single
request, receive the reply, assert the sum, print the result, close the
channel. `sum` is the value carried by the reply the transport delivers. -/
def client_rpc (pre : List Event) (addr : String) (a b sum : Int) :
    List Event × Except PyError Unit :=
  let evs := pre ++ [Event.printConnecting addr, Event.sendRequest a b, Event.recvReply sum]
  if sum = a + b then
    (evs ++ [Event.printResult (clientLine a b sum), Event.closeChannel], Except.ok ())
  else
    (evs, Except.error PyError.assertionError)

/-- client.py `main` (lines 28-45). The parsed arguments, the two random
operands and the sum delivered in the reply are parameters; everything else
follows the source line by line. -/
def client_main (fs : FileSystem) (args : Args) (a b sum : Int) :
    List Event × Except PyError Unit :=
  let addr := server_address args
  let pre := [Event.printSummary (authentication_and_signer_summary args)]
  if args.authentication = "none" then
    client_rpc (pre ++ [Event.openInsecureChannel addr]) addr a b sum
  else
    match make_credentials_tr fs args with
    | (evs, Except.error e) => (pre ++ evs, Except.error e)
    | (evs, Except.ok credentials) =>
        client_rpc (pre ++ evs ++ [Event.openSecureChannel addr credentials]) addr a b sum

/-- Python `random.randint lo hi` can return exactly the integers N with
lo ≤ N ≤ hi (both endpoints included). -/
def randint_possible (lo hi n : Int) : Prop := lo ≤ n ∧ n ≤ hi

instance (lo hi n : Int) : Decidable (randint_possible lo hi n) := by
  unfold randint_possible; infer_instance

/-- The operand generation of client.py lines 39-40: each of `a` and `b` is
`random.randint(1, 10001)`. -/
def client_operand_possible (n : Int) : Prop := randint_possible 1 10001 n

instance (n : Int) : Decidable (client_operand_possible n) := by
  unfold client_operand_possible; infer_instance

/-- The request message: two signed integers. -/
structure AddRequest where
  a : Int
  b : Int
  deriving DecidableEq, Repr

/-- The reply message: one signed integer. -/
structure AddReply where
  sum : Int
  deriving DecidableEq, Repr

/-- The instance state of the `Adder` servicer class (server.py lines 9-14):
the class body defines no instance attributes and `Add` assigns none, so the
state is empty. -/
structure AdderState where
  deriving DecidableEq, Repr

namespace Adder

/-- server.py `Adder.Add` (lines 11-14): build the reply with
`sum = request.a + request.b` and return it; `self` is read but never
written, so the state comes back unchanged. -/
def Add (self : AdderState) (request : AddRequest) : AddReply × AdderState :=
  ({ sum := request.a + request.b }, self)

end Adder

/-- Handling a sequence of requests against one running servicer instance,
threading its state through each call. -/
def serveAll (s : AdderState) (reqs : List AddRequest) : List AddReply × AdderState :=
  match reqs with
  | [] => ([], s)
  | r :: rs =>
      let (rep, s1) := Adder.Add s r
      let (reps, s2) := serveAll s1 rs
      (rep :: reps, s2)

/-- server.py `main` (lines 16-32): when `server_authenticated` is set, print
the mode line, read `server.key` and `server.crt`, build the server
credentials and add a secure port; otherwise add an insecure port. Then
register the servicer, start, print, and wait for termination
(`Except.ok ()` marks reaching that final await). -/
def server_main (fs : FileSystem) (args : Args) : List Event × Except PyError Unit :=
  let addr := server_address args
  let (portEvents, portResult) :=
    if args.server_authenticated then
      match fs FileName.serverKey with
      | none =>
          ([Event.printServerAuth true, Event.readFileEv FileName.serverKey],
           Except.error (PyError.fileNotFound FileName.serverKey))
      | some server_private_key =>
          match fs FileName.serverCrt with
          | none =>
              ([Event.printServerAuth true, Event.readFileEv FileName.serverKey,
                Event.readFileEv FileName.serverCrt],
               Except.error (PyError.fileNotFound FileName.serverCrt))
          | some server_certificate =>
              ([Event.printServerAuth true, Event.readFileEv FileName.serverKey,
                Event.readFileEv FileName.serverCrt,
                Event.addSecurePort addr
                  (ssl_server_credentials [(server_private_key, server_certificate)])],
               Except.ok ())
    else
      ([Event.printServerAuth false, Event.addInsecurePort addr], Except.ok ())
  match portResult with
  | Except.error e => (portEvents, Except.error e)
  | Except.ok _ =>
      (portEvents ++ [Event.registerServicer, Event.serverStarted addr,
                      Event.waitForTermination],
       Except.ok ())

/-- Modelled from the spec: `common.parse_command_line_arguments` (the shared
argument helper, absent from the given sources) restricts the authentication
flag to the set {none, server, mutual} and the signer flag to the set
{self, root, intermediate}. -/
def valid_parsed_args (args : Args) : Prop :=
  (args.authentication = "none" ∨ args.authentication = "server" ∨
     args.authentication = "mutual") ∧
  (args.signer = "self" ∨ args.signer = "root" ∨ args.signer = "intermediate")

instance (args : Args) : Decidable (valid_parsed_args args) := by
  unfold valid_parsed_args; infer_instance

/-- The credential files a client run needs, as a function of the parsed
arguments: the selected trust anchor, plus the client key and certificate in
mutual mode. -/
def client_required_files (args : Args) : List FileName :=
  anchor_file args.signer ::
    (if args.authentication = "mutual" then [FileName.clientKey, FileName.clientCrt] else [])

/-- A concrete argument record used to evaluate the model at one input. -/
def demoArgs : Args :=
  { authentication := "mutual"
    signer := "root"
    server_host := "localhost"
    server_port := 50051
    server_authenticated := true }

/-- A concrete file system in which every credential file is present. -/
def demoFS : FileSystem := fsOf (fun _ => "PEM")

/-- A concrete argument record selecting insecure mode. -/
def demoArgsNone : Args :=
  { authentication := "none"
    signer := "self"
    server_host := "localhost"
    server_port := 50051
    server_authenticated := false }

/-- A concrete file system in which `server.crt` is absent and every other
credential file is present. -/
def demoFSMissing : FileSystem :=
  fun f => if f = FileName.serverCrt then none else some "PEM"

/-- A concrete argument record selecting server-only authentication with the
self-signed trust anchor, on an authenticated server. -/
def demoArgsSelf : Args :=
  { authentication := "server"
    signer := "self"
    server_host := "localhost"
    server_port := 50051
    server_authenticated := true }

/-- Recognizer for the request-send event. -/
def isSendEvent : Event → Bool
  | Event.sendRequest _ _ => true
  | _ => false

/-- Recognizer for the reply-receive event. -/
def isRecvEvent : Event → Bool
  | Event.recvReply _ => true
  | _ => false

/-- Recognizer for the channel-close event. -/
def isCloseEvent : Event → Bool
  | Event.closeChannel => true
  | _ => false

/-- Recognizer for the events a client run can perform before the RPC:
the summary print, file reads, and opening the channel. -/
def isSetupEvent : Event → Bool
  | Event.printSummary _ => true
  | Event.readFileEv _ => true
  | Event.openInsecureChannel _ => true
  | Event.openSecureChannel _ _ => true
  | _ => false

/-! ### Helper lemmas -/

/-- Every event `make_credentials_tr` emits is a file read. -/
theorem make_credentials_tr_events_read (fs : FileSystem) (args : Args) (e : Event)
    (he : e ∈ (make_credentials_tr fs args).1) : ∃ f, e = Event.readFileEv f := by
  unfold make_credentials_tr at he
  repeat' split at he
  all_goals simp_all
  all_goals first
    | exact ⟨_, rfl⟩
    | (rcases he with h | h | h <;> exact ⟨_, h⟩)
    | (rcases he with h | h <;> exact ⟨_, h⟩)

/-- The trace of `client_rpc`, as a function of whether the received sum is
correct. -/
theorem client_rpc_trace (pre : List Event) (addr : String) (a b sum : Int) :
    (client_rpc pre addr a b sum).1 =
      pre ++ [Event.printConnecting addr, Event.sendRequest a b, Event.recvReply sum] ++
        (if sum = a + b then [Event.printResult (clientLine a b sum), Event.closeChannel]
         else []) := by
  unfold client_rpc
  by_cases hs : sum = a + b <;> simp [hs]

/-- `client_rpc` succeeds exactly on a correct sum. -/
theorem client_rpc_result_ok (pre : List Event) (addr : String) (a b sum : Int)
    (hs : sum = a + b) : (client_rpc pre addr a b sum).2 = Except.ok () := by
  unfold client_rpc
  simp [hs]

/-- `client_rpc` raises the assertion on an incorrect sum. -/
theorem client_rpc_result_ne (pre : List Event) (addr : String) (a b sum : Int)
    (hs : sum ≠ a + b) : (client_rpc pre addr a b sum).2 = Except.error PyError.assertionError := by
  unfold client_rpc
  simp [hs]

/-- Shape of a client run: either credential loading failed and the run is
the summary print followed by the file reads and a fatal error, or the run is
`client_rpc` over a prefix made only of the summary print, file reads and one
channel-opening event. -/
theorem client_main_shape (fs : FileSystem) (args : Args) (a b sum : Int) :
    (∃ pre : List Event,
       client_main fs args a b sum = client_rpc pre (server_address args) a b sum ∧
       ∀ e ∈ pre, isSetupEvent e = true) ∨
    (∃ e0, client_main fs args a b sum =
        (Event.printSummary (authentication_and_signer_summary args) ::
           (make_credentials_tr fs args).1, Except.error e0) ∧
       (make_credentials_tr fs args).2 = Except.error e0) := by
  unfold client_main
  by_cases hnone : args.authentication = "none"
  · left
    refine ⟨[Event.printSummary (authentication_and_signer_summary args),
             Event.openInsecureChannel (server_address args)], by simp [hnone], ?_⟩
    intro e he
    simp at he
    rcases he with h | h <;> subst h <;> rfl
  · rcases hmc : make_credentials_tr fs args with ⟨evs, r⟩
    cases r with
    | error e0 =>
        right
        exact ⟨e0, by simp [hnone], rfl⟩
    | ok c =>
        left
        refine ⟨Event.printSummary (authentication_and_signer_summary args) ::
                  (evs ++ [Event.openSecureChannel (server_address args) c]),
                by simp [hnone], ?_⟩
        intro e he
        simp at he
        rcases he with h | h | h
        · subst h
          rfl
        · rcases make_credentials_tr_events_read fs args e (by rw [hmc]; exact h) with ⟨f, hf⟩
          subst hf
          rfl
        · subst h
          rfl

/-- Setup events are neither the send, the receive, nor the close. -/
theorem setup_event_kinds (e : Event) (h : isSetupEvent e = true) :
    isSendEvent e = false ∧ isRecvEvent e = false ∧ isCloseEvent e = false := by
  cases e <;> simp_all [isSetupEvent, isSendEvent, isRecvEvent, isCloseEvent]

/-! ### Claim theorems -/

/-- C1: for every request carrying integers a and b, the Add handler of
server.py returns a reply whose sum field is exactly a + b (over unbounded
integers: the handler performs no range validation or truncation). -/
theorem C1_add_exact (s : AdderState) (a b : Int) :
    ((Adder.Add s { a := a, b := b }).1).sum = a + b := rfl

/-- C2 counterexample: the operand generator of client.py lines 39-40 is
`random.randint(1, 10001)`, whose inclusive upper endpoint 10001 is a
possible operand, and 10001 lies outside the claimed interval [1, 10000]. -/
theorem C2_counterexample :
    client_operand_possible 10001 ∧ ¬ ((10001 : Int) ≤ 10000) := by
  constructor
  · exact ⟨by decide, by decide⟩
  · decide

/-- C2 amended: every invocation of the client generates both request
operands as random integers lying in the closed interval [1, 10001], and no
generated operand is ever outside that interval. -/
theorem C2_operand_range (n : Int) :
    client_operand_possible n ↔ (1 ≤ n ∧ n ≤ 10001) := Iff.rfl

/-- On a wrong sum, no client run ever emits the result-line print. -/
theorem client_main_no_printResult (fs : FileSystem) (args : Args) (a b sum : Int)
    (hne : sum ≠ a + b) (s : String) :
    Event.printResult s ∉ (client_main fs args a b sum).1 := by
  intro hmem
  rcases client_main_shape fs args a b sum with ⟨pre, heq, hpre⟩ | ⟨e0, heq, hr⟩
  · rw [heq, client_rpc_trace] at hmem
    simp [hne] at hmem
    have := hpre _ hmem
    simp [isSetupEvent] at this
  · rw [heq] at hmem
    simp at hmem
    rcases make_credentials_tr_events_read fs args _ hmem with ⟨f, hf⟩
    exact Event.noConfusion hf

/-- On a wrong sum, a client run that received the reply ends in the
assertion failure. -/
theorem client_main_recv_error (fs : FileSystem) (args : Args) (a b sum : Int)
    (hne : sum ≠ a + b)
    (hmem : Event.recvReply sum ∈ (client_main fs args a b sum).1) :
    (client_main fs args a b sum).2 = Except.error PyError.assertionError := by
  rcases client_main_shape fs args a b sum with ⟨pre, heq, hpre⟩ | ⟨e0, heq, hr⟩
  · rw [heq]
    exact client_rpc_result_ne pre _ a b sum hne
  · exfalso
    rw [heq] at hmem
    simp at hmem
    rcases make_credentials_tr_events_read fs args _ hmem with ⟨f, hf⟩
    exact Event.noConfusion hf

/-- C4: if the reply's sum differs from a + b, the client run raises the
local assertion failure and never emits the result-line print; the
result line appears in a run's trace only when the received sum equals
a + b. -/
theorem C4_assert_guards_print (fs : FileSystem) (args : Args) (a b sum : Int) :
    (sum ≠ a + b →
      (∀ s, Event.printResult s ∉ (client_main fs args a b sum).1) ∧
      (Event.recvReply sum ∈ (client_main fs args a b sum).1 →
        (client_main fs args a b sum).2 = Except.error PyError.assertionError)) ∧
    (∀ s, Event.printResult s ∈ (client_main fs args a b sum).1 → sum = a + b) := by
  constructor
  · intro hne
    exact ⟨client_main_no_printResult fs args a b sum hne,
           client_main_recv_error fs args a b sum hne⟩
  · intro s hmem
    by_cases hs : sum = a + b
    · exact hs
    · exact absurd hmem (client_main_no_printResult fs args a b sum hs s)

/-- C4 witness: at one concrete mismatched input (reply sum 9 for operands
3 and 4) the theorem yields the concrete conclusions. -/
theorem C4_assert_guards_print_witness :
    Event.printResult (clientLine 3 4 9) ∉ (client_main demoFS demoArgsNone 3 4 9).1 ∧
    (Event.recvReply 9 ∈ (client_main demoFS demoArgsNone 3 4 9).1 →
      (client_main demoFS demoArgsNone 3 4 9).2 = Except.error PyError.assertionError) :=
  ⟨((C4_assert_guards_print demoFS demoArgsNone 3 4 9).1 (by decide)).1 (clientLine 3 4 9),
   ((C4_assert_guards_print demoFS demoArgsNone 3 4 9).1 (by decide)).2⟩

/-- C7: when the authentication mode is none, the client opens an insecure
channel, reads no certificate or key file on any path, and when the reply
carries the correct sum it completes the full round trip. -/
theorem C7_insecure_no_reads (fs : FileSystem) (args : Args) (a b sum : Int)
    (hnone : args.authentication = "none") :
    (∀ f, Event.readFileEv f ∉ (client_main fs args a b sum).1) ∧
    Event.openInsecureChannel (server_address args) ∈ (client_main fs args a b sum).1 ∧
    (sum = a + b →
      (client_main fs args a b sum).2 = Except.ok () ∧
      Event.sendRequest a b ∈ (client_main fs args a b sum).1 ∧
      Event.recvReply sum ∈ (client_main fs args a b sum).1 ∧
      Event.closeChannel ∈ (client_main fs args a b sum).1) := by
  unfold client_main client_rpc
  by_cases hs : sum = a + b <;> simp [hnone, hs]

/-- C7 witness: a concrete insecure-mode run with a correct reply reads no
file and completes the round trip. -/
theorem C7_insecure_no_reads_witness :
    Event.readFileEv FileName.serverCrt ∉ (client_main demoFS demoArgsNone 2 3 5).1 ∧
    Event.openInsecureChannel (server_address demoArgsNone) ∈
      (client_main demoFS demoArgsNone 2 3 5).1 ∧
    (client_main demoFS demoArgsNone 2 3 5).2 = Except.ok () :=
  ⟨(C7_insecure_no_reads demoFS demoArgsNone 2 3 5 (by decide)).1 FileName.serverCrt,
   (C7_insecure_no_reads demoFS demoArgsNone 2 3 5 (by decide)).2.1,
   ((C7_insecure_no_reads demoFS demoArgsNone 2 3 5 (by decide)).2.2 (by decide)).1⟩

/-- C8: the Add handler mutates no server-side state: over any sequence of
requests handled by one servicer instance, every reply is exactly the sum of
that request's operands and the final state equals the initial state. -/
theorem C8_stateless (s : AdderState) (reqs : List AddRequest) :
    serveAll s reqs = (reqs.map (fun r => { sum := r.a + r.b }), s) := by
  induction reqs with
  | nil => rfl
  | cons r rs ih => simp [serveAll, Adder.Add, ih]

/-- C9: a client run never performs more than one send and one receive, and
a run that completes performs exactly one send, one receive, exactly one
channel close, and its final action is closing the channel. -/
theorem C9_single_round_trip (fs : FileSystem) (args : Args) (a b sum : Int) :
    List.countP isSendEvent (client_main fs args a b sum).1 ≤ 1 ∧
    List.countP isRecvEvent (client_main fs args a b sum).1 ≤ 1 ∧
    ((client_main fs args a b sum).2 = Except.ok () →
      List.countP isSendEvent (client_main fs args a b sum).1 = 1 ∧
      List.countP isRecvEvent (client_main fs args a b sum).1 = 1 ∧
      List.countP isCloseEvent (client_main fs args a b sum).1 = 1 ∧
      ∃ pre : List Event,
        (client_main fs args a b sum).1 = pre ++ [Event.closeChannel]) := by
  rcases client_main_shape fs args a b sum with ⟨pre, heq, hpre⟩ | ⟨e0, heq, hr⟩
  · have hzero : ∀ p : Event → Bool, (∀ e, isSetupEvent e = true → p e = false) →
        List.countP p pre = 0 := by
      intro p hp
      refine List.countP_eq_zero.mpr ?_
      intro e he
      simp [hp e (hpre e he)]
    have hsend0 : List.countP isSendEvent pre = 0 :=
      hzero _ (fun e h => (setup_event_kinds e h).1)
    have hrecv0 : List.countP isRecvEvent pre = 0 :=
      hzero _ (fun e h => (setup_event_kinds e h).2.1)
    have hclose0 : List.countP isCloseEvent pre = 0 :=
      hzero _ (fun e h => (setup_event_kinds e h).2.2)
    by_cases hs : sum = a + b
    · refine ⟨?_, ?_, ?_⟩
      · rw [heq, client_rpc_trace]
        simp [hs, List.countP_append, List.countP_cons, hsend0,
              isSendEvent, isRecvEvent, isCloseEvent]
      · rw [heq, client_rpc_trace]
        simp [hs, List.countP_append, List.countP_cons, hrecv0,
              isSendEvent, isRecvEvent, isCloseEvent]
      · intro _
        refine ⟨?_, ?_, ?_, ?_⟩
        · rw [heq, client_rpc_trace]
          simp [hs, List.countP_append, List.countP_cons, hsend0,
                isSendEvent, isRecvEvent, isCloseEvent]
        · rw [heq, client_rpc_trace]
          simp [hs, List.countP_append, List.countP_cons, hrecv0,
                isSendEvent, isRecvEvent, isCloseEvent]
        · rw [heq, client_rpc_trace]
          simp [hs, List.countP_append, List.countP_cons, hclose0,
                isSendEvent, isRecvEvent, isCloseEvent]
        · refine ⟨pre ++ [Event.printConnecting (server_address args),
                          Event.sendRequest a b, Event.recvReply sum,
                          Event.printResult (clientLine a b sum)], ?_⟩
          rw [heq, client_rpc_trace]
          simp [hs]
    · refine ⟨?_, ?_, ?_⟩
      · rw [heq, client_rpc_trace]
        simp [hs, List.countP_append, List.countP_cons, hsend0,
              isSendEvent, isRecvEvent, isCloseEvent]
      · rw [heq, client_rpc_trace]
        simp [hs, List.countP_append, List.countP_cons, hrecv0,
              isSendEvent, isRecvEvent, isCloseEvent]
      · intro hok
        rw [heq, client_rpc_result_ne pre _ a b sum hs] at hok
        exact absurd hok (by simp)
  · have hreads : ∀ e ∈ (make_credentials_tr fs args).1, ∃ f, e = Event.readFileEv f :=
      fun e he => make_credentials_tr_events_read fs args e he
    have hzero : ∀ p : Event → Bool, (∀ f, p (Event.readFileEv f) = false) →
        List.countP p (make_credentials_tr fs args).1 = 0 := by
      intro p hp
      refine List.countP_eq_zero.mpr ?_
      intro e he
      rcases hreads e he with ⟨f, hf⟩
      subst hf
      simp [hp f]
    refine ⟨?_, ?_, ?_⟩
    · rw [heq]
      simp [List.countP_cons, hzero isSendEvent (fun f => rfl), isSendEvent]
    · rw [heq]
      simp [List.countP_cons, hzero isRecvEvent (fun f => rfl), isRecvEvent]
    · intro hok
      rw [heq] at hok
      exact absurd hok (by simp)

/-- C9 witness: a concrete completed run has exactly one send, one receive
and one close. -/
theorem C9_single_round_trip_witness :
    List.countP isSendEvent (client_main demoFS demoArgsNone 2 3 5).1 = 1 ∧
    List.countP isRecvEvent (client_main demoFS demoArgsNone 2 3 5).1 = 1 ∧
    List.countP isCloseEvent (client_main demoFS demoArgsNone 2 3 5).1 = 1 :=
  ⟨((C9_single_round_trip demoFS demoArgsNone 2 3 5).2.2 (by rfl)).1,
   ((C9_single_round_trip demoFS demoArgsNone 2 3 5).2.2 (by rfl)).2.1,
   ((C9_single_round_trip demoFS demoArgsNone 2 3 5).2.2 (by rfl)).2.2.1⟩

/-- With valid flags, `make_credentials_tr` never ends in the assertion
failure: after the two asserts pass, the only failures are missing files. -/
theorem make_credentials_tr_no_assert (fs : FileSystem) (args : Args)
    (ha : args.authentication = "server" ∨ args.authentication = "mutual")
    (hsig : args.signer = "self" ∨ args.signer = "root" ∨ args.signer = "intermediate") :
    (make_credentials_tr fs args).2 ≠ Except.error PyError.assertionError := by
  unfold make_credentials_tr
  rw [if_neg (not_not_intro ha), if_neg (not_not_intro hsig)]
  cases hanchor : fs (anchor_file args.signer) with
  | none => simp
  | some root =>
      by_cases hm : args.authentication = "mutual"
      · cases hk : fs FileName.clientKey with
        | none => simp [hm]
        | some k =>
            cases hc : fs FileName.clientCrt with
            | none => simp [hm]
            | some c => simp [hm]
      · simp [hm]

/-- With valid flags, a missing required credential file makes
`make_credentials_tr` fail. -/
theorem make_credentials_tr_missing_error (fs : FileSystem) (args : Args) (f : FileName)
    (ha : args.authentication = "server" ∨ args.authentication = "mutual")
    (hsig : args.signer = "self" ∨ args.signer = "root" ∨ args.signer = "intermediate")
    (hf : f ∈ client_required_files args) (hmiss : fs f = none) :
    ∃ e, (make_credentials_tr fs args).2 = Except.error e := by
  unfold make_credentials_tr
  rw [if_neg (not_not_intro ha), if_neg (not_not_intro hsig)]
  unfold client_required_files at hf
  rcases List.mem_cons.mp hf with hf1 | htail
  · subst hf1
    exact ⟨PyError.fileNotFound (anchor_file args.signer), by simp [hmiss]⟩
  · by_cases hm : args.authentication = "mutual"
    · rw [if_pos hm] at htail
      simp at htail
      cases hanchor : fs (anchor_file args.signer) with
      | none => exact ⟨PyError.fileNotFound (anchor_file args.signer), by simp [hanchor]⟩
      | some root =>
          rcases htail with hf1 | hf1 <;> subst hf1
          · exact ⟨PyError.fileNotFound FileName.clientKey, by simp [hanchor, hm, hmiss]⟩
          · cases hk : fs FileName.clientKey with
            | none => exact ⟨PyError.fileNotFound FileName.clientKey, by simp [hanchor, hm, hk]⟩
            | some k =>
                exact ⟨PyError.fileNotFound FileName.clientCrt,
                       by simp [hanchor, hm, hk, hmiss]⟩
    · rw [if_neg hm] at htail
      exact absurd htail (List.not_mem_nil f)

/-- When credential loading fails, the client run is the summary print
followed by the file reads, ending in that error. -/
theorem client_main_cred_error (fs : FileSystem) (args : Args) (a b sum : Int)
    (e : PyError) (hne : args.authentication ≠ "none")
    (herr : (make_credentials_tr fs args).2 = Except.error e) :
    client_main fs args a b sum =
      (Event.printSummary (authentication_and_signer_summary args) ::
        (make_credentials_tr fs args).1, Except.error e) := by
  unfold client_main
  rcases hmc : make_credentials_tr fs args with ⟨evs, r⟩
  rw [hmc] at herr
  simp at herr
  subst herr
  simp [hne]

/-- C5: the client credential construction reads the trust anchor selected
by the signer flag (server.crt for self, root.crt for root,
intermediate.crt otherwise); in mutual mode it additionally reads
client.key and client.crt and passes the pair into the channel credentials,
while in server-only mode it passes the trust anchor alone. -/
theorem C5_make_credentials_shape (g : FileName → String) (args : Args)
    (ha : args.authentication = "server" ∨ args.authentication = "mutual")
    (hsig : args.signer = "self" ∨ args.signer = "root" ∨ args.signer = "intermediate") :
    make_credentials (fsOf g) args = Except.ok
      { root_certificates :=
          if args.signer = "self" then g FileName.serverCrt
          else if args.signer = "root" then g FileName.rootCrt
          else g FileName.intermediateCrt
        private_key :=
          if args.authentication = "mutual" then some (g FileName.clientKey) else none
        certificate_chain :=
          if args.authentication = "mutual" then some (g FileName.clientCrt) else none } := by
  rcases ha with ha | ha <;> rcases hsig with hsig | hsig | hsig <;>
    simp [make_credentials, make_credentials_tr, anchor_file, fsOf, ha, hsig]

/-- C5 witness: in mutual mode with the root signer and all files present,
the credentials carry root.crt as anchor and the client key/certificate
pair. -/
theorem C5_make_credentials_shape_witness :
    make_credentials (fsOf (fun _ => "PEM")) demoArgs = Except.ok
      { root_certificates := "PEM"
        private_key := some "PEM"
        certificate_chain := some "PEM" } := by
  have h := C5_make_credentials_shape (fun _ => "PEM") demoArgs
    (Or.inr rfl) (Or.inr (Or.inl rfl))
  simpa using h

/-- C6: a missing required credential file is fatal before any traffic: on
the client (with valid flags) the run ends in an error without ever sending
the request, and on an authenticated server a missing server.key or
server.crt ends the run in an error before the server is started. -/
theorem C6_missing_file_fatal (fs : FileSystem) (args : Args) (a b sum : Int)
    (f : FileName) :
    ((args.authentication = "server" ∨ args.authentication = "mutual") →
     (args.signer = "self" ∨ args.signer = "root" ∨ args.signer = "intermediate") →
     f ∈ client_required_files args → fs f = none →
     (∃ e, (client_main fs args a b sum).2 = Except.error e) ∧
     ∀ x y : Int, Event.sendRequest x y ∉ (client_main fs args a b sum).1) ∧
    (args.server_authenticated = true →
     (fs FileName.serverKey = none ∨ fs FileName.serverCrt = none) →
     (∃ e, (server_main fs args).2 = Except.error e) ∧
     ∀ ad, Event.serverStarted ad ∉ (server_main fs args).1) := by
  constructor
  · intro ha hsig hf hmiss
    have hne : args.authentication ≠ "none" := by
      rcases ha with ha | ha <;> rw [ha] <;> decide
    rcases make_credentials_tr_missing_error fs args f ha hsig hf hmiss with ⟨e, herr⟩
    rw [client_main_cred_error fs args a b sum e hne herr]
    refine ⟨⟨e, rfl⟩, ?_⟩
    intro x y hmem
    simp at hmem
    rcases make_credentials_tr_events_read fs args _ hmem with ⟨f1, hf1⟩
    exact Event.noConfusion hf1
  · intro hsa hmiss
    unfold server_main
    rcases hmiss with hk | hc
    · simp [hsa, hk]
    · cases hk : fs FileName.serverKey with
      | none => simp [hsa, hk]
      | some k => simp [hsa, hk, hc]

/-- C6 witness: with server.crt absent, the concrete self-signed client run
fails without sending and the concrete authenticated server run fails
without starting. -/
theorem C6_missing_file_fatal_witness :
    (∃ e, (client_main demoFSMissing demoArgsSelf 1 2 3).2 = Except.error e) ∧
    Event.sendRequest 1 2 ∉ (client_main demoFSMissing demoArgsSelf 1 2 3).1 ∧
    (∃ e, (server_main demoFSMissing demoArgsSelf).2 = Except.error e) ∧
    Event.serverStarted (server_address demoArgsSelf) ∉
      (server_main demoFSMissing demoArgsSelf).1 :=
  ⟨((C6_missing_file_fatal demoFSMissing demoArgsSelf 1 2 3 FileName.serverCrt).1
      (Or.inl rfl) (Or.inl rfl) (by decide) rfl).1,
   ((C6_missing_file_fatal demoFSMissing demoArgsSelf 1 2 3 FileName.serverCrt).1
      (Or.inl rfl) (Or.inl rfl) (by decide) rfl).2 1 2,
   ((C6_missing_file_fatal demoFSMissing demoArgsSelf 1 2 3 FileName.serverCrt).2
      rfl (Or.inr rfl)).1,
   ((C6_missing_file_fatal demoFSMissing demoArgsSelf 1 2 3 FileName.serverCrt).2
      rfl (Or.inr rfl)).2 (server_address demoArgsSelf)⟩

/-- C10: under the argument helper's value sets (spec-modelled) and the main
flow's guard that the mode is not none, the asserts at the top of
`make_credentials` cannot fail: the result is never the assertion error. -/
theorem C10_asserts_unreachable (fs : FileSystem) (args : Args)
    (hvalid : valid_parsed_args args) (hne : args.authentication ≠ "none") :
    make_credentials fs args ≠ Except.error PyError.assertionError := by
  rcases hvalid with ⟨ha, hsig⟩
  have ha2 : args.authentication = "server" ∨ args.authentication = "mutual" := by
    rcases ha with h | h | h
    · exact absurd h hne
    · exact Or.inl h
    · exact Or.inr h
  exact make_credentials_tr_no_assert fs args ha2 hsig

/-- C10 witness: at the concrete mutual-mode arguments the asserts pass. -/
theorem C10_asserts_unreachable_witness :
    make_credentials demoFS demoArgs ≠ Except.error PyError.assertionError :=
  C10_asserts_unreachable demoFS demoArgs (by decide) (by decide)

/-- C3 counterexample: the credentials the authenticated server actually
builds (server.py line 24, one positional argument) leave
`require_client_auth` at False and carry no client root certificates, so the
configuration does not require the client to present an identity. -/
theorem C3_counterexample :
    (ssl_server_credentials [("PEM", "PEM")]).require_client_auth = false ∧
    (ssl_server_credentials [("PEM", "PEM")]).root_certificates = none ∧
    Event.addSecurePort (server_address demoArgs)
        (ssl_server_credentials [("PEM", "PEM")]) ∈ (server_main demoFS demoArgs).1 := by
  refine ⟨rfl, rfl, ?_⟩
  simp [server_main, demoArgs, demoFS, fsOf]

/-- C3 amended: in authenticated mode the server's credential configuration
supplies only its own key/certificate pair; `require_client_auth` is False
and no client root certificates are configured, so the configuration does
not require the client to present an identity and a client without
client.key/client.crt is not rejected by it. -/
theorem C3_no_client_auth_required (g : FileName → String) (args : Args)
    (hsa : args.server_authenticated = true) :
    Event.addSecurePort (server_address args)
        (ssl_server_credentials [(g FileName.serverKey, g FileName.serverCrt)])
      ∈ (server_main (fsOf g) args).1 ∧
    ∀ pairs : List (String × String),
      (ssl_server_credentials pairs).require_client_auth = false ∧
      (ssl_server_credentials pairs).root_certificates = none := by
  constructor
  · simp [server_main, hsa, fsOf]
  · intro pairs
    exact ⟨rfl, rfl⟩

/-- C3 amended witness: the concrete authenticated run adds its secure port
with credentials that do not require client identity. -/
theorem C3_no_client_auth_required_witness :
    Event.addSecurePort (server_address demoArgsSelf)
        (ssl_server_credentials [("PEM", "PEM")])
      ∈ (server_main (fsOf (fun _ => "PEM")) demoArgsSelf).1 ∧
    (ssl_server_credentials [("PEM", "PEM")]).require_client_auth = false :=
  ⟨(C3_no_client_auth_required (fun _ => "PEM") demoArgsSelf rfl).1,
   ((C3_no_client_auth_required (fun _ => "PEM") demoArgsSelf rfl).2 [("PEM", "PEM")]).1⟩

end SecureGrpc
